import Mathlib

/-!
Verification of the fabric-sync admin `DeviceManager`
(src/examples/fabric-sync/admin/DeviceManager.h).

The repository provides the class declaration with a few inline member
functions (`SyncedDevice`, `operator<`, `IsFabricSyncReady`,
`IsCurrentBridgeDevice`, `GetRemoteBridgeNodeId`) and the constants
`kDefaultSetupPinCode` and `kResponseTimeoutSeconds`.  The remaining member
bodies are not part of the available source; where a property depends on
them they are modelled from the specification, each such definition marked
`Modelled from the spec:` in its doc comment.

Machine integers (`chip::NodeId` = uint64_t, `chip::EndpointId` = uint16_t,
`uint64_t mRequestId`) are embedded as `Nat`; none of the modelled
operations perform arithmetic that can overflow except the allocator's
`+ 1`, which the spec states as plain successor.
-/

namespace Admin

/-- Models `chip::kUndefinedNodeId` (external CHIP constant, value 0):
the sentinel meaning "no bridge is paired". -/
def kUndefinedNodeId : Nat := 0

/-- Source constant `kResponseTimeoutSeconds = 30` (DeviceManager.h line 32). -/
def kResponseTimeoutSeconds : Nat := 30

/-- Source constant `kDefaultSetupPinCode = 20202021` (DeviceManager.h line 31). -/
def kDefaultSetupPinCode : Nat := 20202021

/-- The `SyncedDevice` class (DeviceManager.h lines 34-50): identity of a
bridged device, a `nodeId` (local-fabric identifier) and an `endpointId`
(bridge endpoint exposing the device). -/
structure SyncedDevice where
  mNodeId : Nat
  mEndpointId : Nat
deriving DecidableEq

/-- The source comparison `SyncedDevice::operator<` (DeviceManager.h
lines 42-45): `mNodeId < other.mNodeId || (mNodeId == other.mNodeId &&
mEndpointId < other.mEndpointId)`. -/
def SyncedDevice.lt (a b : SyncedDevice) : Bool :=
  a.mNodeId < b.mNodeId || (a.mNodeId == b.mNodeId && a.mEndpointId < b.mEndpointId)

/-- Models `chip::ScopedNodeId` (external CHIP type): a node identifier
together with the fabric index scoping it. -/
structure ScopedNodeId where
  mNodeId : Nat
  mFabricIndex : Nat
deriving DecidableEq

/-- The mutable state of `DeviceManager` (DeviceManager.h lines 234-242)
relevant to the verified properties, with the source's member initializers:
`mLastUsedNodeId = 0`, `mRemoteBridgeNodeId = chip::kUndefinedNodeId`,
`mSyncedDevices` empty, `mRequestId = 0`.  `std::set<SyncedDevice>` is
embedded as a list kept strictly increasing under `SyncedDevice.lt`; the
`mInitialized` flag and the external collaborator members
(`BridgeSubscription`, `CommissionerControl`, `FabricSyncGetter`) play no
role in any verified property and are not carried. -/
structure DeviceManager where
  mLastUsedNodeId : Nat := 0
  mRemoteBridgeNodeId : Nat := kUndefinedNodeId
  mSyncedDevices : List SyncedDevice := []
  mRequestId : Nat := 0
deriving DecidableEq

/-- The state right after construction: all members at their source
initializers. -/
def initialDeviceManager : DeviceManager := {}

/-- Inline source body (DeviceManager.h line 67):
`GetRemoteBridgeNodeId() const { return mRemoteBridgeNodeId; }`. -/
def GetRemoteBridgeNodeId (s : DeviceManager) : Nat :=
  s.mRemoteBridgeNodeId

/-- Inline source body (DeviceManager.h line 73):
`IsFabricSyncReady() const { return mRemoteBridgeNodeId != chip::kUndefinedNodeId; }`. -/
def IsFabricSyncReady (s : DeviceManager) : Bool :=
  s.mRemoteBridgeNodeId != kUndefinedNodeId

/-- Inline source body (DeviceManager.h line 91):
`IsCurrentBridgeDevice(nodeId) const { return nodeId == mRemoteBridgeNodeId; }`. -/
def IsCurrentBridgeDevice (s : DeviceManager) (nodeId : Nat) : Bool :=
  nodeId == s.mRemoteBridgeNodeId

/-- Modelled from the spec: the body of `DeviceManager::GetNextAvailableNodeId`
is not in the available source.  Spec section 4.1: "returns
`lastUsedNodeId + 1` without mutating state (pure query)".  The unchanged
state is returned alongside the value so that purity is part of the model
rather than assumed. -/
def GetNextAvailableNodeId (s : DeviceManager) : Nat × DeviceManager :=
  (s.mLastUsedNodeId + 1, s)

/-- Modelled from the spec: the body of `DeviceManager::UpdateLastUsedNodeId`
is not in the available source.  Spec section 4.1: "`UpdateLastUsedNodeId`
only advances the value (monotonic; rejects/ignores an update that would
move it backward)". -/
def UpdateLastUsedNodeId (s : DeviceManager) (nodeId : Nat) : DeviceManager :=
  if s.mLastUsedNodeId < nodeId then { s with mLastUsedNodeId := nodeId } else s

/-- Ordered insertion into the strictly-`lt`-sorted list embedding
`std::set<SyncedDevice>::insert`: a `std::set` keyed by `operator<` keeps at
most one element of each equivalence class of "neither compares less", so
inserting an element equivalent to a present one is a no-op. -/
def setInsert (d : SyncedDevice) : List SyncedDevice → List SyncedDevice
  | [] => [d]
  | x :: xs =>
    if SyncedDevice.lt d x then d :: x :: xs
    else if SyncedDevice.lt x d then x :: setInsert d xs
    else x :: xs

/-- Modelled from the spec: the body of `DeviceManager::AddSyncedDevice` is
not in the available source.  Spec section 4.2: "inserts; no-op (or reports
a duplicate condition) if an entry with the same key exists" — i.e. the
`std::set` insertion of `mSyncedDevices`, keyed by the source
`SyncedDevice::operator<`. -/
def AddSyncedDevice (s : DeviceManager) (d : SyncedDevice) : DeviceManager :=
  { s with mSyncedDevices := setInsert d s.mSyncedDevices }

/-- Modelled from the spec: the body of `DeviceManager::RemoveSyncedDevice`
is not in the available source.  Spec sections 4.2 and 8: "removes by node
identifier scoped to a fabric context; no-op if absent", and the scenario
showing every entry whose `nodeId` matches is removed. -/
def RemoveSyncedDevice (s : DeviceManager) (scopedNodeId : ScopedNodeId) : DeviceManager :=
  { s with mSyncedDevices :=
      s.mSyncedDevices.filter (fun d => !(d.mNodeId == scopedNodeId.mNodeId)) }

/-- Modelled from the spec: the body of `DeviceManager::UnpairRemoteFabricBridge`
is not in the available source.  Spec section 4.5: "removes the bridge
relationship; must cascade — every `SyncedDevice` whose presence depended on
that bridge becomes invalid and is removed from the registry, and
`remoteBridgeNodeId` resets to the undefined sentinel".  The state after a
successful unpairing is modelled. -/
def UnpairRemoteFabricBridge (s : DeviceManager) : DeviceManager :=
  { s with mSyncedDevices := [], mRemoteBridgeNodeId := kUndefinedNodeId }

/-- Modelled from the spec: the body of `DeviceManager::UnpairRemoteDevice`
is not in the available source.  Spec section 4.5: "removes a single device
from both the fabric and the registry; if `nodeId` equals
`remoteBridgeNodeId`, behaves as full bridge unpairing".  The bridge test is
the source inline `IsCurrentBridgeDevice`. -/
def UnpairRemoteDevice (s : DeviceManager) (nodeId : Nat) : DeviceManager :=
  if IsCurrentBridgeDevice s nodeId then UnpairRemoteFabricBridge s
  else { s with mSyncedDevices := s.mSyncedDevices.filter (fun d => !(d.mNodeId == nodeId)) }

/-- Phases of the cross-fabric approval state machine, spec section 4.6:
`Idle -> RequestSent -> (Approved -> WindowOpenPending -> WindowOpened | Denied | TimedOut)`,
returning to `Idle` on any terminal outcome. -/
inductive CorrPhase where
  | Idle
  | RequestSent
  | Approved
  | WindowOpenPending
  | WindowOpened
deriving DecidableEq

/-- Modelled from the spec: the `ApprovalRequestCorrelator` component (spec
section 4.4), whose source is the private members `mRequestId`
(DeviceManager.h line 242), `RequestCommissioningApproval`,
`SendCommissionNodeRequest` and `HandleCommissioningRequestResult`
(declarations only).  `requestId` models `mRequestId`, the single
outstanding request identifier; `deadline` is the absolute time at which
the outstanding request times out. -/
structure Correlator where
  phase : CorrPhase
  requestId : Nat
  deadline : Nat
deriving DecidableEq

/-- Observable results the correlator reports to its caller. -/
inductive CorrOutput where
  | timeoutReported
  | approvedReported
  | deniedReported
  | staleDiscarded
deriving DecidableEq

/-- Inbound events the correlator consumes: a decoded commissioning-request
result carrying the bridge's `requestId` and verdict, or the timeout timer
firing at absolute time `now`. -/
inductive CorrEvent where
  | response (requestId : Nat) (approved : Bool)
  | timerFire (now : Nat)
deriving DecidableEq

/-- Modelled from the spec: the body of
`DeviceManager::SendCommissionNodeRequest(requestId, responseTimeoutSeconds)`
is not in the available source.  Spec section 4.4: records `requestId` as the
single outstanding request, sends the request to the remote bridge, and
starts a timeout of `responseTimeoutSeconds`. -/
def SendCommissionNodeRequest (c : Correlator) (now requestId timeoutSeconds : Nat) :
    Correlator :=
  { c with
    phase := CorrPhase.RequestSent
    requestId := requestId
    deadline := now + timeoutSeconds }

/-- Modelled from the spec: the body of
`DeviceManager::HandleCommissioningRequestResult` is not in the available
source.  Spec section 4.4: the decoded response "must match the currently
outstanding `requestId` — a response with a stale or unknown id is discarded
as a protocol anomaly (logged, not fatal)"; on approval the reverse-window
continuation is triggered, on denial the flow aborts (terminal, back to
`Idle`). -/
def HandleCommissioningRequestResult (c : Correlator) (rid : Nat) (approved : Bool) :
    Correlator × List CorrOutput :=
  if rid == c.requestId && c.phase == CorrPhase.RequestSent then
    if approved then ({ c with phase := CorrPhase.Approved }, [CorrOutput.approvedReported])
    else ({ c with phase := CorrPhase.Idle }, [CorrOutput.deniedReported])
  else (c, [CorrOutput.staleDiscarded])

/-- Modelled from the spec: the timeout transition (spec sections 4.4, 5 and
7c): when the deadline of the outstanding request passes with no matching
response, the correlator returns to `Idle` and the caller is notified of
timeout; the timer has no effect in any other phase. -/
def timerExpire (c : Correlator) (now : Nat) : Correlator × List CorrOutput :=
  if c.phase == CorrPhase.RequestSent && c.deadline ≤ now then
    ({ c with phase := CorrPhase.Idle }, [CorrOutput.timeoutReported])
  else (c, [])

/-- One correlator step on an inbound event. -/
def stepCorrelator (c : Correlator) : CorrEvent → Correlator × List CorrOutput
  | CorrEvent.response rid approved => HandleCommissioningRequestResult c rid approved
  | CorrEvent.timerFire now => timerExpire c now

/-- Runs the correlator over a sequence of inbound events, collecting every
reported output in order. -/
def runCorrelator (c : Correlator) : List CorrEvent → Correlator × List CorrOutput
  | [] => (c, [])
  | e :: es =>
    let r := stepCorrelator c e
    let rest := runCorrelator r.1 es
    (rest.1, r.2 ++ rest.2)

/-- Synchronous result of `OpenRemoteDeviceCommissioningWindow`. -/
inductive OpenRemoteResult where
  | ok
  | preconditionError
deriving DecidableEq

/-- Outbound messages to the external commissioner-control collaborator. -/
inductive OutboundMsg where
  | commissionNodeRequest (requestId : Nat) (timeoutSeconds : Nat)
deriving DecidableEq

/-- Modelled from the spec: the body of
`DeviceManager::OpenRemoteDeviceCommissioningWindow` is not in the available
source.  Spec sections 4.3 case 3, 4.4, 7a and 8: when no bridge is paired
(`IsFabricSyncReady()` false, tested by the source inline body) the call
fails synchronously with a precondition error, issues no outbound request
and changes no state; otherwise it allocates a fresh `requestId` (monotonic
counter), records it, and sends a commission-node request with the
`kResponseTimeoutSeconds` timeout. -/
def OpenRemoteDeviceCommissioningWindow (s : DeviceManager) (remoteEndpointId : Nat) :
    DeviceManager × List OutboundMsg × OpenRemoteResult :=
  if IsFabricSyncReady s then
    ({ s with mRequestId := s.mRequestId + 1 },
      [OutboundMsg.commissionNodeRequest (s.mRequestId + 1) kResponseTimeoutSeconds],
      OpenRemoteResult.ok)
  else (s, [], OpenRemoteResult.preconditionError)

/-- A registry operation, for stating the uniqueness invariant over all
sequences of `AddSyncedDevice` and `RemoveSyncedDevice`. -/
inductive RegOp where
  | add (d : SyncedDevice)
  | remove (scopedNodeId : ScopedNodeId)

/-- Applies one registry operation to the manager state. -/
def applyRegOp (s : DeviceManager) : RegOp → DeviceManager
  | RegOp.add d => AddSyncedDevice s d
  | RegOp.remove sn => RemoveSyncedDevice s sn

/-- Applies a sequence of registry operations in order. -/
def applyRegOps (s : DeviceManager) (ops : List RegOp) : DeviceManager :=
  ops.foldl applyRegOp s

/-- The registry invariant: the list embedding `mSyncedDevices` is strictly
increasing under the source `SyncedDevice::operator<`, exactly the shape a
`std::set<SyncedDevice>` maintains. -/
def SortedReg (s : DeviceManager) : Prop :=
  List.Pairwise (fun a b => SyncedDevice.lt a b = true) s.mSyncedDevices

theorem syncedDevice_lt_iff (a b : SyncedDevice) :
    SyncedDevice.lt a b = true ↔
      (a.mNodeId < b.mNodeId ∨ (a.mNodeId = b.mNodeId ∧ a.mEndpointId < b.mEndpointId)) := by
  simp [SyncedDevice.lt]

theorem syncedDevice_lt_trans {a b c : SyncedDevice}
    (hab : SyncedDevice.lt a b = true) (hbc : SyncedDevice.lt b c = true) :
    SyncedDevice.lt a c = true := by
  rw [syncedDevice_lt_iff] at hab hbc ⊢
  omega

theorem syncedDevice_lt_key_ne {a b : SyncedDevice}
    (h : SyncedDevice.lt a b = true) :
    ¬ (a.mNodeId = b.mNodeId ∧ a.mEndpointId = b.mEndpointId) := by
  rw [syncedDevice_lt_iff] at h
  omega

theorem mem_setInsert {y d : SyncedDevice} :
    ∀ {l : List SyncedDevice}, y ∈ setInsert d l → y = d ∨ y ∈ l := by
  intro l
  induction l with
  | nil => simp [setInsert]
  | cons x xs ih =>
    simp only [setInsert]
    split
    · intro h
      rcases List.mem_cons.mp h with h1 | h1
      · exact Or.inl h1
      · exact Or.inr h1
    · split
      · intro h
        rcases List.mem_cons.mp h with h1 | h1
        · exact Or.inr (List.mem_cons.mpr (Or.inl h1))
        · rcases ih h1 with h2 | h2
          · exact Or.inl h2
          · exact Or.inr (List.mem_cons.mpr (Or.inr h2))
      · intro h
        exact Or.inr h

theorem pairwise_setInsert (d : SyncedDevice) :
    ∀ {l : List SyncedDevice},
      List.Pairwise (fun a b => SyncedDevice.lt a b = true) l →
      List.Pairwise (fun a b => SyncedDevice.lt a b = true) (setInsert d l) := by
  intro l
  induction l with
  | nil =>
    intro _
    simp [setInsert]
  | cons x xs ih =>
    intro hp
    rcases List.pairwise_cons.mp hp with ⟨hx, hxs⟩
    simp only [setInsert]
    split
    · rename_i hdx
      refine List.pairwise_cons.mpr ⟨?_, hp⟩
      intro y hy
      rcases List.mem_cons.mp hy with rfl | hy2
      · exact hdx
      · exact syncedDevice_lt_trans hdx (hx y hy2)
    · split
      · rename_i hxd
        refine List.pairwise_cons.mpr ⟨?_, ih hxs⟩
        intro y hy
        rcases mem_setInsert hy with rfl | hy2
        · exact hxd
        · exact hx y hy2
      · exact hp

theorem sortedReg_applyRegOp {s : DeviceManager} (op : RegOp)
    (h : SortedReg s) : SortedReg (applyRegOp s op) := by
  cases op with
  | add d =>
    exact pairwise_setInsert d h
  | remove sn =>
    exact List.Pairwise.filter _ h

theorem sortedReg_applyRegOps (ops : List RegOp) :
    ∀ {s : DeviceManager}, SortedReg s → SortedReg (applyRegOps s ops) := by
  induction ops with
  | nil =>
    intro s h
    exact h
  | cons op rest ih =>
    intro s h
    exact ih (sortedReg_applyRegOp op h)

/-- C1: for every sequence of `AddSyncedDevice` and `RemoveSyncedDevice`
operations starting from the empty registry, the registry never holds two
`SyncedDevice` entries with equal `(nodeId, endpointId)`; and the source
`SyncedDevice::operator<` used as the `std::set` key is exactly the
lexicographic order on `(nodeId, endpointId)`. -/
theorem c1_registry_unique_key :
    (∀ ops : List RegOp,
        List.Pairwise
          (fun a b => ¬ (a.mNodeId = b.mNodeId ∧ a.mEndpointId = b.mEndpointId))
          (applyRegOps initialDeviceManager ops).mSyncedDevices) ∧
    (∀ a b : SyncedDevice,
        SyncedDevice.lt a b = true ↔
          (a.mNodeId < b.mNodeId ∨ (a.mNodeId = b.mNodeId ∧ a.mEndpointId < b.mEndpointId))) := by
  constructor
  · intro ops
    have hsorted : SortedReg (applyRegOps initialDeviceManager ops) :=
      sortedReg_applyRegOps ops List.Pairwise.nil
    exact hsorted.imp (fun h => syncedDevice_lt_key_ne h)
  · exact syncedDevice_lt_iff

/-- C2: `GetNextAvailableNodeId()` returns `lastUsedNodeId + 1`, leaves the
whole manager state (in particular `mLastUsedNodeId`) unchanged, and a
repeated call with no intervening `UpdateLastUsedNodeId` returns the same
value. -/
theorem c2_getNextAvailableNodeId_pure (s : DeviceManager) :
    (GetNextAvailableNodeId s).1 = s.mLastUsedNodeId + 1 ∧
    (GetNextAvailableNodeId s).2 = s ∧
    (GetNextAvailableNodeId (GetNextAvailableNodeId s).2).1 =
      (GetNextAvailableNodeId s).1 := by
  exact ⟨rfl, rfl, rfl⟩

/-- C3: `UpdateLastUsedNodeId` is monotonic: with current value `x`, an
update to `y < x` leaves the stored value `x`, and an update to `y ≥ x`
stores `y`. -/
theorem c3_updateLastUsedNodeId_monotonic (s : DeviceManager) (y : Nat) :
    (y < s.mLastUsedNodeId →
      (UpdateLastUsedNodeId s y).mLastUsedNodeId = s.mLastUsedNodeId) ∧
    (s.mLastUsedNodeId ≤ y →
      (UpdateLastUsedNodeId s y).mLastUsedNodeId = y) := by
  constructor
  · intro h
    simp only [UpdateLastUsedNodeId]
    rw [if_neg (by omega)]
  · intro h
    simp only [UpdateLastUsedNodeId]
    rcases Nat.lt_or_ge s.mLastUsedNodeId y with h2 | h2
    · rw [if_pos h2]
    · rw [if_neg (by omega)]
      omega

theorem c3_witness :
    ((3 : Nat) < (UpdateLastUsedNodeId initialDeviceManager 5).mLastUsedNodeId ∧
      (UpdateLastUsedNodeId (UpdateLastUsedNodeId initialDeviceManager 5) 3).mLastUsedNodeId
        = (UpdateLastUsedNodeId initialDeviceManager 5).mLastUsedNodeId) ∧
    ((UpdateLastUsedNodeId initialDeviceManager 5).mLastUsedNodeId ≤ 7 ∧
      (UpdateLastUsedNodeId (UpdateLastUsedNodeId initialDeviceManager 5) 7).mLastUsedNodeId
        = 7) :=
  ⟨⟨by decide,
      (c3_updateLastUsedNodeId_monotonic (UpdateLastUsedNodeId initialDeviceManager 5) 3).1
        (by decide)⟩,
    ⟨by decide,
      (c3_updateLastUsedNodeId_monotonic (UpdateLastUsedNodeId initialDeviceManager 5) 7).2
        (by decide)⟩⟩

/-- C4: after `UnpairRemoteFabricBridge()` succeeds, whatever the prior state
(any registry contents, any bridge), the registry is empty, the bridge node
id is the undefined sentinel, and `IsFabricSyncReady()` is false. -/
theorem c4_unpairRemoteFabricBridge_cascades (s : DeviceManager) :
    (UnpairRemoteFabricBridge s).mSyncedDevices = [] ∧
    (UnpairRemoteFabricBridge s).mRemoteBridgeNodeId = kUndefinedNodeId ∧
    IsFabricSyncReady (UnpairRemoteFabricBridge s) = false := by
  refine ⟨rfl, rfl, ?_⟩
  simp [IsFabricSyncReady, UnpairRemoteFabricBridge]

/-- C5: `RemoveSyncedDevice(scopedNodeId)` keeps exactly the registry
entries whose `nodeId` differs from the given scoped node id (and touches no
other state), is a no-op when no entry carries that `nodeId`, and on the
registry `{(10,1),(10,2),(11,1)}` removing `scoped(10)` leaves exactly
`{(11,1)}`. -/
theorem c5_removeSyncedDevice_by_node :
    (∀ (s : DeviceManager) (sn : ScopedNodeId) (d : SyncedDevice),
        d ∈ (RemoveSyncedDevice s sn).mSyncedDevices ↔
          d ∈ s.mSyncedDevices ∧ d.mNodeId ≠ sn.mNodeId) ∧
    (∀ (s : DeviceManager) (sn : ScopedNodeId),
        (∀ d ∈ s.mSyncedDevices, d.mNodeId ≠ sn.mNodeId) →
        RemoveSyncedDevice s sn = s) ∧
    (RemoveSyncedDevice
        { initialDeviceManager with
            mSyncedDevices := [⟨10, 1⟩, ⟨10, 2⟩, ⟨11, 1⟩] }
        ⟨10, 1⟩).mSyncedDevices = [⟨11, 1⟩] := by
  refine ⟨?_, ?_, by decide⟩
  · intro s sn d
    simp [RemoveSyncedDevice, List.mem_filter]
  · intro s sn h
    simp only [RemoveSyncedDevice]
    have : s.mSyncedDevices.filter (fun d => !(d.mNodeId == sn.mNodeId))
        = s.mSyncedDevices := by
      apply List.filter_eq_self.mpr
      intro d hd
      simpa using h d hd
    rw [this]

theorem c5_witness :
    (∀ d ∈ ({ initialDeviceManager with
        mSyncedDevices := [⟨11, 1⟩] } : DeviceManager).mSyncedDevices,
        d.mNodeId ≠ (⟨10, 1⟩ : ScopedNodeId).mNodeId) ∧
    RemoveSyncedDevice
        { initialDeviceManager with mSyncedDevices := [⟨11, 1⟩] } ⟨10, 1⟩
      = { initialDeviceManager with mSyncedDevices := [⟨11, 1⟩] } :=
  ⟨by decide,
    c5_removeSyncedDevice_by_node.2.1
      { initialDeviceManager with mSyncedDevices := [⟨11, 1⟩] } ⟨10, 1⟩ (by decide)⟩

/-- C6: a `HandleCommissioningRequestResult` payload whose `requestId`
differs from the outstanding one leaves the whole correlator state
(including the outstanding `requestId`) unchanged, and the response is
discarded as a non-fatal anomaly. -/
theorem c6_stale_response_ignored (c : Correlator) (rid : Nat) (approved : Bool)
    (h : rid ≠ c.requestId) :
    (HandleCommissioningRequestResult c rid approved).1 = c ∧
    (HandleCommissioningRequestResult c rid approved).2 = [CorrOutput.staleDiscarded] := by
  have hb : (rid == c.requestId) = false := beq_eq_false_iff_ne.mpr h
  simp [HandleCommissioningRequestResult, hb]

theorem c6_witness :
    ((7 : Nat) ≠ (⟨CorrPhase.RequestSent, 42, 30⟩ : Correlator).requestId) ∧
    (HandleCommissioningRequestResult ⟨CorrPhase.RequestSent, 42, 30⟩ 7 true).1
      = ⟨CorrPhase.RequestSent, 42, 30⟩ :=
  ⟨by decide,
    (c6_stale_response_ignored ⟨CorrPhase.RequestSent, 42, 30⟩ 7 true (by decide)).1⟩

/-- C7: with no bridge paired (`IsFabricSyncReady()` false),
`OpenRemoteDeviceCommissioningWindow` fails synchronously with a
precondition error, issues no outbound request, and changes no state, for
every endpoint id. -/
theorem c7_openRemoteWindow_requires_bridge (s : DeviceManager) (remoteEndpointId : Nat)
    (h : IsFabricSyncReady s = false) :
    OpenRemoteDeviceCommissioningWindow s remoteEndpointId
      = (s, [], OpenRemoteResult.preconditionError) := by
  simp [OpenRemoteDeviceCommissioningWindow, h]

theorem c7_witness :
    IsFabricSyncReady initialDeviceManager = false ∧
    OpenRemoteDeviceCommissioningWindow initialDeviceManager 3
      = (initialDeviceManager, [], OpenRemoteResult.preconditionError) :=
  ⟨by decide, c7_openRemoteWindow_requires_bridge initialDeviceManager 3 (by decide)⟩

theorem runCorrelator_idle_timers (times : List Nat) :
    ∀ c : Correlator, c.phase = CorrPhase.Idle →
      runCorrelator c (times.map CorrEvent.timerFire) = (c, []) := by
  induction times with
  | nil =>
    intro c _
    rfl
  | cons t rest ih =>
    intro c h
    simp [runCorrelator, stepCorrelator, timerExpire, h, ih c h]

theorem runCorrelator_requestSent_timers (times : List Nat) :
    ∀ c : Correlator, c.phase = CorrPhase.RequestSent →
      runCorrelator c (times.map CorrEvent.timerFire)
        = if times.any (fun t => c.deadline ≤ t)
          then ({ c with phase := CorrPhase.Idle }, [CorrOutput.timeoutReported])
          else (c, []) := by
  induction times with
  | nil =>
    intro c _
    simp [runCorrelator]
  | cons t rest ih =>
    intro c h
    by_cases hd : c.deadline ≤ t
    · have hidle :
          runCorrelator { c with phase := CorrPhase.Idle } (rest.map CorrEvent.timerFire)
            = ({ c with phase := CorrPhase.Idle }, []) :=
        runCorrelator_idle_timers rest _ rfl
      simp [runCorrelator, stepCorrelator, timerExpire, h, hd, hidle]
    · simp [runCorrelator, stepCorrelator, timerExpire, h, hd, ih c h]

/-- C8: the response timeout constant is 30 seconds, and for every
commission-node request sent with it, if only timer firings arrive and one
of them is at or past the deadline, the correlator ends in `Idle` and the
complete output trace is a single timeout report — reported exactly once,
with no retry and no other outbound activity. -/
theorem c8_timeout_reported_once :
    kResponseTimeoutSeconds = 30 ∧
    ∀ (c : Correlator) (now rid : Nat) (times : List Nat),
      (∃ t ∈ times, now + kResponseTimeoutSeconds ≤ t) →
      (runCorrelator (SendCommissionNodeRequest c now rid kResponseTimeoutSeconds)
          (times.map CorrEvent.timerFire)).1.phase = CorrPhase.Idle ∧
      (runCorrelator (SendCommissionNodeRequest c now rid kResponseTimeoutSeconds)
          (times.map CorrEvent.timerFire)).2 = [CorrOutput.timeoutReported] := by
  refine ⟨rfl, ?_⟩
  intro c now rid times h
  obtain ⟨t, ht, hle⟩ := h
  have hany :
      times.any
        (fun u => (SendCommissionNodeRequest c now rid kResponseTimeoutSeconds).deadline ≤ u)
        = true := by
    refine List.any_eq_true.mpr ⟨t, ht, ?_⟩
    simpa [SendCommissionNodeRequest] using hle
  rw [runCorrelator_requestSent_timers times
        (SendCommissionNodeRequest c now rid kResponseTimeoutSeconds) rfl,
      if_pos hany]
  exact ⟨rfl, rfl⟩

theorem c8_witness :
    (∃ t ∈ [(5 : Nat), 30, 40], 0 + kResponseTimeoutSeconds ≤ t) ∧
    (runCorrelator
        (SendCommissionNodeRequest ⟨CorrPhase.Idle, 0, 0⟩ 0 42 kResponseTimeoutSeconds)
        ([5, 30, 40].map CorrEvent.timerFire)).1.phase = CorrPhase.Idle ∧
    (runCorrelator
        (SendCommissionNodeRequest ⟨CorrPhase.Idle, 0, 0⟩ 0 42 kResponseTimeoutSeconds)
        ([5, 30, 40].map CorrEvent.timerFire)).2 = [CorrOutput.timeoutReported] :=
  ⟨by decide,
    (c8_timeout_reported_once.2 ⟨CorrPhase.Idle, 0, 0⟩ 0 42 [5, 30, 40] (by decide)).1,
    (c8_timeout_reported_once.2 ⟨CorrPhase.Idle, 0, 0⟩ 0 42 [5, 30, 40] (by decide)).2⟩

/-- C9: with a bridge paired, `UnpairRemoteDevice(nodeId)` applied to the
bridge's own node id coincides with a full `UnpairRemoteFabricBridge()`:
the registry is emptied and the bridge id resets to the undefined
sentinel. -/
theorem c9_unpair_bridge_is_full_unpair (s : DeviceManager) (nodeId : Nat)
    (hready : IsFabricSyncReady s = true)
    (heq : nodeId = s.mRemoteBridgeNodeId) :
    UnpairRemoteDevice s nodeId = UnpairRemoteFabricBridge s ∧
    (UnpairRemoteDevice s nodeId).mSyncedDevices = [] ∧
    (UnpairRemoteDevice s nodeId).mRemoteBridgeNodeId = kUndefinedNodeId := by
  have hb : IsCurrentBridgeDevice s nodeId = true := by
    simp [IsCurrentBridgeDevice, heq]
  simp [UnpairRemoteDevice, hb, UnpairRemoteFabricBridge]

theorem c9_witness :
    (IsFabricSyncReady
        { initialDeviceManager with
            mRemoteBridgeNodeId := 9
            mSyncedDevices := [⟨10, 1⟩, ⟨10, 2⟩] } = true) ∧
    UnpairRemoteDevice
        { initialDeviceManager with
            mRemoteBridgeNodeId := 9
            mSyncedDevices := [⟨10, 1⟩, ⟨10, 2⟩] } 9
      = UnpairRemoteFabricBridge
          { initialDeviceManager with
              mRemoteBridgeNodeId := 9
              mSyncedDevices := [⟨10, 1⟩, ⟨10, 2⟩] } :=
  ⟨by decide,
    (c9_unpair_bridge_is_full_unpair
        { initialDeviceManager with
            mRemoteBridgeNodeId := 9
            mSyncedDevices := [⟨10, 1⟩, ⟨10, 2⟩] } 9 (by decide) rfl).1⟩

/-- C10: when no bridge is paired (`mRemoteBridgeNodeId` is the undefined
sentinel, hence `IsFabricSyncReady()` false), `IsCurrentBridgeDevice`
applied to `kUndefinedNodeId` returns true: the inline membership test is a
plain equality against `mRemoteBridgeNodeId` and does not exclude the
sentinel. -/
theorem c10_sentinel_counted_as_bridge (s : DeviceManager)
    (h : s.mRemoteBridgeNodeId = kUndefinedNodeId) :
    IsCurrentBridgeDevice s kUndefinedNodeId = true ∧
    IsFabricSyncReady s = false := by
  simp [IsCurrentBridgeDevice, IsFabricSyncReady, h]

theorem c10_witness :
    initialDeviceManager.mRemoteBridgeNodeId = kUndefinedNodeId ∧
    IsCurrentBridgeDevice initialDeviceManager kUndefinedNodeId = true :=
  ⟨by decide, (c10_sentinel_counted_as_bridge initialDeviceManager (by decide)).1⟩

end Admin
